import Mathlib

/-!
Verification of the compile-time server configuration module
(`src/compile_time_config.rs` of rustdeskfuben).

The module is embedded shallowly:

* `CompileTimeConfig` mirrors the Rust struct of the same name, and
  `COMPILE_TIME_CONFIG` the lazy-static singleton built from the four
  compile-time constants.
* The Applier `init_compile_time_config` is embedded as the pure list of
  external calls it performs, in program order: `Event.storeSet k v` for
  each `config::set(k, v)`, `Event.hardInsert k v` for each
  `config::HARD_SETTINGS.write().unwrap().insert(k, v)`, and
  `Event.setAppName v` for the `*config::APP_NAME.write().unwrap() = v`
  assignment.
* External collaborator state (`ExtState`) folds such an event list into
  a ConfigStore map, a HardSettingsRegistry map and the application
  identity string.
* The gate `ensure_compile_time_config_initialized` is embedded twice:
  sequentially as a transformer on `SysState` (external state, full call
  trace, and the `INITIALIZED` flag), and concurrently as a small-step
  interleaving relation `CStep` over per-thread program counters, where
  each lock-protected region of the double-checked-locking code is one
  atomic step (the RwLock makes each such region mutually exclusive, so
  any sequentially consistent execution is equivalent to an interleaving
  of these atomic regions).
-/

namespace CompileTimeConfigModule

/-- Mirrors the Rust struct `CompileTimeConfig`: the four compile-time
server configuration strings. -/
structure CompileTimeConfig where
  rendezvous_server : String
  relay_server : String
  api_server : String
  key : String
deriving DecidableEq, Repr

/-- The constant `CUSTOM_RENDEZVOUS_SERVER` from the source. -/
def CUSTOM_RENDEZVOUS_SERVER : String := "123.56.52.21:21117"

/-- The constant `CUSTOM_RELAY_SERVER` from the source. -/
def CUSTOM_RELAY_SERVER : String := "123.56.52.21:21117"

/-- The constant `CUSTOM_API_SERVER` from the source. -/
def CUSTOM_API_SERVER : String := "http://123.56.52.21:21114"

/-- The constant `CUSTOM_KEY` from the source. -/
def CUSTOM_KEY : String := "I+4iSpQm+RRTCxCTiK2rIbPqNs5fTcEatxI9UBmWuqE="

/-- The lazy-static singleton `COMPILE_TIME_CONFIG` from the source,
built from the four constants. -/
def COMPILE_TIME_CONFIG : CompileTimeConfig :=
  { rendezvous_server := CUSTOM_RENDEZVOUS_SERVER
    relay_server := CUSTOM_RELAY_SERVER
    api_server := CUSTOM_API_SERVER
    key := CUSTOM_KEY }

/-- Modelled from the spec: the setting key named
`config::keys::OPTION_CUSTOM_RENDEZVOUS_SERVER` in the external
hbb_common collaborator, whose literal value is not part of this
repository.  The spec only requires the designated keys to be distinct,
which the chosen literals are. -/
def OPTION_CUSTOM_RENDEZVOUS_SERVER : String := "custom-rendezvous-server"

/-- Modelled from the spec: the external key
`config::keys::OPTION_RELAY_SERVER`. -/
def OPTION_RELAY_SERVER : String := "relay-server"

/-- Modelled from the spec: the external key
`config::keys::OPTION_API_SERVER`. -/
def OPTION_API_SERVER : String := "api-server"

/-- Modelled from the spec: the external key `config::keys::OPTION_KEY`
(the public-key setting). -/
def OPTION_KEY : String := "key"

/-- Modelled from the spec: the external key
`config::keys::OPTION_ALLOW_REMOTE_CONFIG_MODIFICATION`. -/
def OPTION_ALLOW_REMOTE_CONFIG_MODIFICATION : String :=
  "allow-remote-config-modification"

/-- Modelled from the spec: the external key `config::keys::RELAY_PASS`,
the default connection password option. -/
def RELAY_PASS : String := "relay-pass"

/-- Modelled from the spec: the external key
`config::keys::OPTION_PERMISSION`, the granted permission level. -/
def OPTION_PERMISSION : String := "permission"

/-- One external call performed by the Applier: a ConfigStore write, a
HardSettingsRegistry insertion, or the ApplicationIdentity overwrite. -/
inductive Event where
  | storeSet (k v : String)
  | hardInsert (k v : String)
  | setAppName (v : String)
deriving DecidableEq, Repr

/-- The Applier `init_compile_time_config`, embedded as the list of
external calls it performs, in program order.  Each of the first four
`config::set` calls is guarded by the corresponding field being
non-empty, exactly as in the source; the remaining calls are
unconditional. -/
def init_compile_time_config (config : CompileTimeConfig) : List Event :=
  (if config.rendezvous_server.isEmpty then []
   else [Event.storeSet OPTION_CUSTOM_RENDEZVOUS_SERVER config.rendezvous_server]) ++
  (if config.relay_server.isEmpty then []
   else [Event.storeSet OPTION_RELAY_SERVER config.relay_server]) ++
  (if config.api_server.isEmpty then []
   else [Event.storeSet OPTION_API_SERVER config.api_server]) ++
  (if config.key.isEmpty then []
   else [Event.storeSet OPTION_KEY config.key]) ++
  [Event.storeSet "allow-hide-cm" "Y",
   Event.storeSet OPTION_ALLOW_REMOTE_CONFIG_MODIFICATION "Y",
   Event.storeSet RELAY_PASS "Mm118811",
   Event.storeSet OPTION_PERMISSION "all",
   Event.hardInsert OPTION_CUSTOM_RENDEZVOUS_SERVER config.rendezvous_server,
   Event.hardInsert OPTION_RELAY_SERVER config.relay_server,
   Event.hardInsert OPTION_API_SERVER config.api_server,
   Event.hardInsert OPTION_KEY config.key,
   Event.setAppName "RustDesk Custom"]

/-- State of the external collaborators: the ConfigStore key-value map,
the HardSettingsRegistry map, and the ApplicationIdentity string. -/
structure ExtState where
  store : String → Option String
  hard : String → Option String
  appName : String

/-- Apply one external call to the collaborator state. -/
def applyEvent (s : ExtState) : Event → ExtState
  | Event.storeSet k v =>
      { s with store := fun k2 => if k2 = k then some v else s.store k2 }
  | Event.hardInsert k v =>
      { s with hard := fun k2 => if k2 = k then some v else s.hard k2 }
  | Event.setAppName v => { s with appName := v }

/-- Apply a list of external calls in order. -/
def applyEvents (s : ExtState) (es : List Event) : ExtState :=
  es.foldl applyEvent s

/-- Sequential state of the whole system: the external collaborators,
the full history of external calls performed so far, and the
`INITIALIZED` flag. -/
structure SysState where
  ext : ExtState
  trace : List Event
  initialized : Bool

/-- A fresh system state over arbitrary collaborator state: the
`INITIALIZED` flag starts `false` and nothing has been called yet. -/
def initialSys (e : ExtState) : SysState :=
  { ext := e, trace := [], initialized := false }

/-- A direct call to the public Applier `init_compile_time_config`:
performs all of its external calls against the current state and does
not touch the `INITIALIZED` flag. -/
def run_init_compile_time_config (s : SysState) : SysState :=
  { s with
    ext := applyEvents s.ext (init_compile_time_config COMPILE_TIME_CONFIG)
    trace := s.trace ++ init_compile_time_config COMPILE_TIME_CONFIG }

/-- Sequential embedding of `ensure_compile_time_config_initialized`:
read-lock check of the flag, then (sequentially redundant, but faithful
to the source) the double check under the write lock, running the
Applier and setting the flag when it is still `false`. -/
def ensure_compile_time_config_initialized (s : SysState) : SysState :=
  if !s.initialized then
    if !s.initialized then
      let s2 := run_init_compile_time_config s
      { s2 with initialized := true }
    else s
  else s

/-- Health of the `INITIALIZED` RwLock: `poisoned` after a prior panic
of a lock holder. -/
inductive LockState where
  | healthy
  | poisoned
deriving DecidableEq, Repr

/-- `ensure_compile_time_config_initialized` with the `.unwrap()` calls
on the lock made explicit: acquiring a poisoned lock makes `unwrap`
panic, embedded as `Except.error`; the panic is not caught or retried,
and no part of the initialization runs. -/
def ensure_compile_time_config_initialized_checked
    (lock : LockState) (s : SysState) : Except String SysState :=
  match lock with
  | LockState.poisoned =>
      Except.error "called Result::unwrap() on an Err value: PoisonError"
  | LockState.healthy => Except.ok (ensure_compile_time_config_initialized s)

/-- Recognizes a ConfigStore write among the external calls. -/
def Event.isStoreSet : Event → Bool
  | Event.storeSet _ _ => true
  | _ => false

/-- Recognizes a HardSettingsRegistry insertion among the external
calls. -/
def Event.isHardInsert : Event → Bool
  | Event.hardInsert _ _ => true
  | _ => false

/-- Number of ConfigStore.set calls in an event list. -/
def countStoreSets (es : List Event) : Nat :=
  (es.filter Event.isStoreSet).length

/-- The ConfigStore.set calls of an event list that target a given
key. -/
def storeSetsFor (es : List Event) (k : String) : List Event :=
  es.filter fun e =>
    match e with
    | Event.storeSet k2 _ => k2 == k
    | _ => false

/-- Collaborator state with nothing written yet, used for concrete
witnesses. -/
def emptyExt : ExtState :=
  { store := fun _ => none, hard := fun _ => none, appName := "RustDesk" }

/-- Program counter of one thread executing the double-checked-locking
body of `ensure_compile_time_config_initialized`. -/
inductive PC where
  | start
  | waitWrite
  | done
deriving DecidableEq, Repr

/-- Concurrent system state for `N` threads: per-thread program
counters, the `INITIALIZED` flag, the number of times the Applier body
has executed, and the external collaborator state. -/
structure CState (N : Nat) where
  pcs : Fin N → PC
  flag : Bool
  applyCount : Nat
  ext : ExtState

/-- Initial concurrent state: every thread about to enter
`ensure_compile_time_config_initialized`, flag `false`, Applier never
run, collaborators in an arbitrary starting state `e`. -/
def cInit (N : Nat) (e : ExtState) : CState N :=
  { pcs := fun _ => PC.start, flag := false, applyCount := 0, ext := e }

/-- One atomic step of the interleaving semantics.  Each constructor is
one lock-protected region of the source: the read-locked flag check
(`readTrue` and `readFalse`), and the write-locked double check followed
by either running the Applier and setting the flag (`writeRun`) or doing
nothing (`writeSkip`).  The RwLock makes each region mutually exclusive
with every other lock-protected region, so modelling regions as atomic
steps is faithful for sequentially consistent executions. -/
inductive CStep {N : Nat} : CState N → CState N → Prop where
  | readTrue (s : CState N) (i : Fin N) (hpc : s.pcs i = PC.start)
      (hf : s.flag = true) :
      CStep s { s with pcs := Function.update s.pcs i PC.done }
  | readFalse (s : CState N) (i : Fin N) (hpc : s.pcs i = PC.start)
      (hf : s.flag = false) :
      CStep s { s with pcs := Function.update s.pcs i PC.waitWrite }
  | writeRun (s : CState N) (i : Fin N) (hpc : s.pcs i = PC.waitWrite)
      (hf : s.flag = false) :
      CStep s { pcs := Function.update s.pcs i PC.done
                flag := true
                applyCount := s.applyCount + 1
                ext := applyEvents s.ext
                  (init_compile_time_config COMPILE_TIME_CONFIG) }
  | writeSkip (s : CState N) (i : Fin N) (hpc : s.pcs i = PC.waitWrite)
      (hf : s.flag = true) :
      CStep s { s with pcs := Function.update s.pcs i PC.done }

/-- Reachability in the interleaving semantics. -/
def Reaches {N : Nat} : CState N → CState N → Prop :=
  Relation.ReflTransGen CStep

/-- Invariant of the gate: while the flag is `false` the Applier has
never run, the collaborators are untouched and no thread has returned;
once the flag is `true` the Applier has run exactly once and all of its
effects are applied. -/
def CInv {N : Nat} (e : ExtState) (s : CState N) : Prop :=
  (s.flag = false →
    s.applyCount = 0 ∧ s.ext = e ∧ ∀ i, s.pcs i ≠ PC.done) ∧
  (s.flag = true →
    s.applyCount = 1 ∧
    s.ext = applyEvents e (init_compile_time_config COMPILE_TIME_CONFIG))

/-- Concurrent state of one thread after its read-locked check of the
flag observed `false`. -/
def cState1 : CState 1 :=
  { cInit 1 emptyExt with
    pcs := Function.update (cInit 1 emptyExt).pcs (0 : Fin 1) PC.waitWrite }

/-- Concurrent state of one thread after its write-locked double check
ran the Applier and set the flag. -/
def cFinal1 : CState 1 :=
  { pcs := Function.update cState1.pcs (0 : Fin 1) PC.done
    flag := true
    applyCount := cState1.applyCount + 1
    ext := applyEvents cState1.ext
      (init_compile_time_config COMPILE_TIME_CONFIG) }

lemma cInv_init (N : Nat) (e : ExtState) : CInv e (cInit N e) := by
  refine ⟨fun _ => ⟨rfl, rfl, fun i h => ?_⟩, fun h => ?_⟩
  · simp [cInit] at h
  · simp [cInit] at h

lemma cInv_step {N : Nat} {e : ExtState} {s s' : CState N}
    (h : CStep s s') (hi : CInv e s) : CInv e s' := by
  cases h with
  | readTrue i hpc hf =>
      refine ⟨fun hf' => ?_, fun _ => hi.2 hf⟩
      simp [hf] at hf'
  | readFalse i hpc hf =>
      refine ⟨fun _ => ?_, fun hf' => ?_⟩
      · obtain ⟨hc, he, hnd⟩ := hi.1 hf
        refine ⟨hc, he, fun j hj => ?_⟩
        simp only [Function.update_apply] at hj
        by_cases hji : j = i
        · rw [if_pos hji] at hj
          exact absurd hj (by simp)
        · rw [if_neg hji] at hj
          exact hnd j hj
      · simp [hf] at hf'
  | writeRun i hpc hf =>
      obtain ⟨hc, he, _⟩ := hi.1 hf
      refine ⟨fun hf' => ?_, fun _ => ?_⟩
      · exact absurd hf' (by simp)
      · constructor
        · simp [hc]
        · simp only
          rw [he]
  | writeSkip i hpc hf =>
      refine ⟨fun hf' => ?_, fun _ => hi.2 hf⟩
      simp [hf] at hf'

lemma cInv_reaches {N : Nat} {e : ExtState} {s : CState N}
    (h : Reaches (cInit N e) s) : CInv e s := by
  induction h with
  | refl => exact cInv_init N e
  | tail _ hbc ih => exact cInv_step hbc ih

lemma cStep_flag_mono {N : Nat} {s s' : CState N} (h : CStep s s')
    (hf : s.flag = true) : s'.flag = true := by
  cases h with
  | readTrue i hpc hf2 => exact hf
  | readFalse i hpc hf2 => exact hf
  | writeRun i hpc hf2 => rfl
  | writeSkip i hpc hf2 => exact hf

lemma reaches_cFinal1 : Reaches (cInit 1 emptyExt) cFinal1 := by
  have h1 : CStep (cInit 1 emptyExt) cState1 :=
    CStep.readFalse (cInit 1 emptyExt) (0 : Fin 1) rfl rfl
  have h2 : CStep cState1 cFinal1 :=
    CStep.writeRun cState1 (0 : Fin 1)
      (by simp [cState1, cInit, Function.update]) rfl
  exact Relation.ReflTransGen.head h1 (Relation.ReflTransGen.single h2)

lemma ensure_idem (s : SysState) :
    ensure_compile_time_config_initialized
      (ensure_compile_time_config_initialized s) =
    ensure_compile_time_config_initialized s := by
  by_cases h : s.initialized <;>
    simp [ensure_compile_time_config_initialized, h,
      run_init_compile_time_config]

lemma ensure_iterate (n : Nat) (s : SysState) :
    (ensure_compile_time_config_initialized)^[n + 1] s =
      ensure_compile_time_config_initialized s := by
  induction n generalizing s with
  | zero => rfl
  | succ n ih =>
      rw [Function.iterate_succ_apply, ih, ensure_idem]

lemma applyEvents_append (s : ExtState) (xs ys : List Event) :
    applyEvents s (xs ++ ys) = applyEvents (applyEvents s xs) ys := by
  simp [applyEvents]

lemma countStoreSets_init (cfg : CompileTimeConfig) :
    countStoreSets (init_compile_time_config cfg) =
      (if cfg.rendezvous_server = "" then 0 else 1) +
      (if cfg.relay_server = "" then 0 else 1) +
      (if cfg.api_server = "" then 0 else 1) +
      (if cfg.key = "" then 0 else 1) + 4 := by
  by_cases h1 : cfg.rendezvous_server = "" <;>
  by_cases h2 : cfg.relay_server = "" <;>
  by_cases h3 : cfg.api_server = "" <;>
  by_cases h4 : cfg.key = "" <;>
    simp [countStoreSets, init_compile_time_config, String.isEmpty_iff,
      h1, h2, h3, h4, Event.isStoreSet]

/-- C1: in the interleaving semantics of the double-checked-locking
gate, for any number N ≥ 1 of concurrent callers of
`ensure_compile_time_config_initialized`, in every reachable state in
which all callers have returned, the Applier body has executed exactly
once and all of its effects are fully applied to the collaborator
state, regardless of which caller triggered the application. -/
theorem exactly_once_concurrent (N : Nat) (e : ExtState) (hN : 1 ≤ N)
    (s : CState N) (hr : Reaches (cInit N e) s)
    (hdone : ∀ i, s.pcs i = PC.done) :
    s.applyCount = 1 ∧
    s.ext = applyEvents e (init_compile_time_config COMPILE_TIME_CONFIG) := by
  have hinv := cInv_reaches hr
  cases hflag : s.flag with
  | false => exact absurd (hdone ⟨0, hN⟩) ((hinv.1 hflag).2.2 ⟨0, hN⟩)
  | true => exact hinv.2 hflag

/-- Witness for C1 at N = 1: the concrete execution in which the single
thread reads the flag as `false`, then runs the Applier under the write
lock, ends with apply count 1 and the collaborator state fully
applied. -/
theorem exactly_once_concurrent_witness :
    cFinal1.applyCount = 1 ∧
    cFinal1.ext =
      applyEvents emptyExt (init_compile_time_config COMPILE_TIME_CONFIG) :=
  exactly_once_concurrent 1 emptyExt (by decide) cFinal1 reaches_cFinal1
    (by
      intro i
      fin_cases i
      simp [cFinal1, cState1, cInit, Function.update])

/-- C7: the `INITIALIZED` flag never transitions away from `true` under
any step, and in every reachable state where the flag is `true` the
Applier has run exactly once and every one of its writes is already
applied to the collaborator state: the flag is set only after all
Applier writes completed, so an observer of `true` sees them all. -/
theorem initialized_flag_monotone_and_visible (N : Nat) (e : ExtState) :
    (∀ s s2 : CState N, CStep s s2 → s.flag = true → s2.flag = true) ∧
    (∀ s : CState N, Reaches (cInit N e) s → s.flag = true →
      s.applyCount = 1 ∧
      s.ext = applyEvents e (init_compile_time_config COMPILE_TIME_CONFIG)) :=
  ⟨fun _ _ h hf => cStep_flag_mono h hf,
   fun _ hr hf => (cInv_reaches hr).2 hf⟩

/-- Witness for C7: in the concrete one-thread execution the final
state has the flag `true`, and the theorem yields that the Applier ran
once with all effects visible. -/
theorem initialized_flag_monotone_and_visible_witness :
    cFinal1.flag = true ∧ cFinal1.applyCount = 1 ∧
    cFinal1.ext =
      applyEvents emptyExt (init_compile_time_config COMPILE_TIME_CONFIG) :=
  ⟨rfl, (initialized_flag_monotone_and_visible 1 emptyExt).2 cFinal1
    reaches_cFinal1 rfl⟩

/-- C2: sequentially, a second call to
`ensure_compile_time_config_initialized` after a completed first call
is a no-op: the resulting system state, including the external
collaborator state and the full trace of external calls, is unchanged,
so no ConfigStore.set call, no HardSettingsRegistry insertion and no
ApplicationIdentity overwrite occurs during the second call. -/
theorem ensure_second_call_noop (s : SysState) :
    ensure_compile_time_config_initialized
      (ensure_compile_time_config_initialized s) =
    ensure_compile_time_config_initialized s :=
  ensure_idem s

/-- C3: with the four compile-time constants equal to the literal
values below, after `ensure_compile_time_config_initialized` completes
from a fresh (uninitialized) system state, the ConfigStore maps the
custom-rendezvous-server, relay-server, API-server and public-key keys
to exactly those four values. -/
theorem literal_round_trip (e : ExtState) :
    CUSTOM_RENDEZVOUS_SERVER = "123.56.52.21:21117" ∧
    CUSTOM_RELAY_SERVER = "123.56.52.21:21117" ∧
    CUSTOM_API_SERVER = "http://123.56.52.21:21114" ∧
    CUSTOM_KEY = "I+4iSpQm+RRTCxCTiK2rIbPqNs5fTcEatxI9UBmWuqE=" ∧
    (ensure_compile_time_config_initialized (initialSys e)).ext.store
      OPTION_CUSTOM_RENDEZVOUS_SERVER = some "123.56.52.21:21117" ∧
    (ensure_compile_time_config_initialized (initialSys e)).ext.store
      OPTION_RELAY_SERVER = some "123.56.52.21:21117" ∧
    (ensure_compile_time_config_initialized (initialSys e)).ext.store
      OPTION_API_SERVER = some "http://123.56.52.21:21114" ∧
    (ensure_compile_time_config_initialized (initialSys e)).ext.store
      OPTION_KEY = some "I+4iSpQm+RRTCxCTiK2rIbPqNs5fTcEatxI9UBmWuqE=" :=
  ⟨rfl, rfl, rfl, rfl, rfl, rfl, rfl, rfl⟩

/-- C4: the Applier's HardSettingsRegistry insertions are exactly the
four server-identity pairs, unconditionally for every ConfigSpec; and
after any positive number of calls to
`ensure_compile_time_config_initialized` from a fresh state with an
empty registry, the registry contains exactly the four server-identity
keys, each mapped to the corresponding compile-time constant. -/
theorem hard_settings_exactly_four (cfg : CompileTimeConfig)
    (st : String → Option String) (an : String) (n : Nat) :
    (init_compile_time_config cfg).filter Event.isHardInsert =
      [Event.hardInsert OPTION_CUSTOM_RENDEZVOUS_SERVER cfg.rendezvous_server,
       Event.hardInsert OPTION_RELAY_SERVER cfg.relay_server,
       Event.hardInsert OPTION_API_SERVER cfg.api_server,
       Event.hardInsert OPTION_KEY cfg.key] ∧
    ((ensure_compile_time_config_initialized)^[n + 1]
        (initialSys { store := st, hard := fun _ => none, appName := an })).ext.hard =
      fun k =>
        if k = OPTION_KEY then some CUSTOM_KEY
        else if k = OPTION_API_SERVER then some CUSTOM_API_SERVER
        else if k = OPTION_RELAY_SERVER then some CUSTOM_RELAY_SERVER
        else if k = OPTION_CUSTOM_RENDEZVOUS_SERVER then
          some CUSTOM_RENDEZVOUS_SERVER
        else none := by
  constructor
  · by_cases h1 : cfg.rendezvous_server.isEmpty <;>
    by_cases h2 : cfg.relay_server.isEmpty <;>
    by_cases h3 : cfg.api_server.isEmpty <;>
    by_cases h4 : cfg.key.isEmpty <;>
      simp [init_compile_time_config, h1, h2, h3, h4, Event.isHardInsert]
  · rw [ensure_iterate]
    rfl

set_option maxHeartbeats 1000000 in
/-- C5: for every ConfigSpec and each of the four fields, the
ConfigStore.set calls of the Applier targeting that field's designated
key are none when the field is the empty string, and exactly the single
write of that field's value when it is non-empty. -/
theorem empty_field_skip_exact_writes (cfg : CompileTimeConfig) :
    storeSetsFor (init_compile_time_config cfg) OPTION_CUSTOM_RENDEZVOUS_SERVER =
      (if cfg.rendezvous_server = "" then []
       else [Event.storeSet OPTION_CUSTOM_RENDEZVOUS_SERVER
         cfg.rendezvous_server]) ∧
    storeSetsFor (init_compile_time_config cfg) OPTION_RELAY_SERVER =
      (if cfg.relay_server = "" then []
       else [Event.storeSet OPTION_RELAY_SERVER cfg.relay_server]) ∧
    storeSetsFor (init_compile_time_config cfg) OPTION_API_SERVER =
      (if cfg.api_server = "" then []
       else [Event.storeSet OPTION_API_SERVER cfg.api_server]) ∧
    storeSetsFor (init_compile_time_config cfg) OPTION_KEY =
      (if cfg.key = "" then []
       else [Event.storeSet OPTION_KEY cfg.key]) := by
  by_cases h1 : cfg.rendezvous_server = "" <;>
  by_cases h2 : cfg.relay_server = "" <;>
  by_cases h3 : cfg.api_server = "" <;>
  by_cases h4 : cfg.key = "" <;>
    simp [storeSetsFor, init_compile_time_config, String.isEmpty_iff,
      h1, h2, h3, h4, OPTION_CUSTOM_RENDEZVOUS_SERVER, OPTION_RELAY_SERVER,
      OPTION_API_SERVER, OPTION_KEY, OPTION_ALLOW_REMOTE_CONFIG_MODIFICATION,
      RELAY_PASS, OPTION_PERMISSION]

/-- C6: regardless of the ConfigSpec contents and the prior collaborator
state, after the Applier runs the ConfigStore maps "allow-hide-cm" to
"Y", the remote-configuration-modification option to "Y", the default
connection password option to "Mm118811" and the permission option to
"all", and the ApplicationIdentity equals "RustDesk Custom". -/
theorem fixed_auxiliary_values (cfg : CompileTimeConfig) (e : ExtState) :
    (applyEvents e (init_compile_time_config cfg)).store "allow-hide-cm" =
      some "Y" ∧
    (applyEvents e (init_compile_time_config cfg)).store
      OPTION_ALLOW_REMOTE_CONFIG_MODIFICATION = some "Y" ∧
    (applyEvents e (init_compile_time_config cfg)).store RELAY_PASS =
      some "Mm118811" ∧
    (applyEvents e (init_compile_time_config cfg)).store OPTION_PERMISSION =
      some "all" ∧
    (applyEvents e (init_compile_time_config cfg)).appName =
      "RustDesk Custom" := by
  unfold init_compile_time_config
  rw [applyEvents_append, applyEvents_append, applyEvents_append,
    applyEvents_append]
  exact ⟨rfl, rfl, rfl, rfl, rfl⟩

/-- C8 as stated is false: with all four compile-time fields non-empty
the Applier performs 8 ConfigStore.set calls, not 9, so the claimed
maximum of 9 is never attained. -/
theorem store_set_count_counterexample :
    COMPILE_TIME_CONFIG.rendezvous_server ≠ "" ∧
    COMPILE_TIME_CONFIG.relay_server ≠ "" ∧
    COMPILE_TIME_CONFIG.api_server ≠ "" ∧
    COMPILE_TIME_CONFIG.key ≠ "" ∧
    countStoreSets (init_compile_time_config COMPILE_TIME_CONFIG) = 8 ∧
    countStoreSets (init_compile_time_config COMPILE_TIME_CONFIG) ≠ 9 := by
  decide

/-- C8 amended: during one successful initialization the core calls
ConfigStore.set at most 8 times for every ConfigSpec, and the maximum of
8 calls is attained when all four ConfigSpec fields are non-empty. -/
theorem store_set_count_le_eight (cfg : CompileTimeConfig) :
    countStoreSets (init_compile_time_config cfg) ≤ 8 ∧
    (cfg.rendezvous_server ≠ "" → cfg.relay_server ≠ "" →
      cfg.api_server ≠ "" → cfg.key ≠ "" →
      countStoreSets (init_compile_time_config cfg) = 8) := by
  constructor
  · rw [countStoreSets_init]
    split_ifs <;> omega
  · intro h1 h2 h3 h4
    rw [countStoreSets_init]
    simp [h1, h2, h3, h4]

/-- Witness for the amended C8 at the compile-time singleton, whose
four fields are all non-empty. -/
theorem store_set_count_le_eight_witness :
    countStoreSets (init_compile_time_config COMPILE_TIME_CONFIG) ≤ 8 ∧
    countStoreSets (init_compile_time_config COMPILE_TIME_CONFIG) = 8 :=
  ⟨(store_set_count_le_eight COMPILE_TIME_CONFIG).1,
   (store_set_count_le_eight COMPILE_TIME_CONFIG).2
     (by decide) (by decide) (by decide) (by decide)⟩

/-- C9: acquiring the initialization flag's lock in a poisoned state
makes `ensure_compile_time_config_initialized` abort fatally (the
embedded `unwrap` panic) instead of returning normally: the result is
the panic error, never a normal return, and no initialization state is
produced. -/
theorem poisoned_lock_is_fatal (s : SysState) :
    ensure_compile_time_config_initialized_checked LockState.poisoned s =
      Except.error "called Result::unwrap() on an Err value: PoisonError" ∧
    ∀ s2 : SysState,
      ensure_compile_time_config_initialized_checked LockState.poisoned s ≠
        Except.ok s2 := by
  refine ⟨rfl, fun s2 h => ?_⟩
  simp [ensure_compile_time_config_initialized_checked] at h

/-- Witness for C9 at a concrete fresh state. -/
theorem poisoned_lock_is_fatal_witness :
    ensure_compile_time_config_initialized_checked LockState.poisoned
        (initialSys emptyExt) =
      Except.error "called Result::unwrap() on an Err value: PoisonError" ∧
    ensure_compile_time_config_initialized_checked LockState.poisoned
        (initialSys emptyExt) ≠
      Except.ok (initialSys emptyExt) :=
  ⟨(poisoned_lock_is_fatal (initialSys emptyExt)).1,
   (poisoned_lock_is_fatal (initialSys emptyExt)).2 (initialSys emptyExt)⟩

/-- C10: a direct call to the public Applier
`init_compile_time_config` is not guarded by the `INITIALIZED` flag: it
leaves the flag unchanged, performs its full list of external calls (13
of them: 8 ConfigStore.set calls with the compile-time singleton, 4
HardSettingsRegistry insertions, 1 ApplicationIdentity overwrite)
against the current state again, so the exactly-once guarantee holds
only for calls routed through
`ensure_compile_time_config_initialized`. -/
theorem init_direct_unguarded (s : SysState) :
    (run_init_compile_time_config s).initialized = s.initialized ∧
    (run_init_compile_time_config s).trace =
      s.trace ++ init_compile_time_config COMPILE_TIME_CONFIG ∧
    (run_init_compile_time_config s).ext =
      applyEvents s.ext (init_compile_time_config COMPILE_TIME_CONFIG) ∧
    (init_compile_time_config COMPILE_TIME_CONFIG).length = 13 ∧
    countStoreSets (init_compile_time_config COMPILE_TIME_CONFIG) = 8 :=
  ⟨rfl, rfl, rfl, by decide, by decide⟩

end CompileTimeConfigModule
